import Mathlib

/-!
Verification of the data-pipeline core of a domain-adaptation training script
(`step3_step4/step3_table3_run.py`): the label codec, the paired augmentation,
the center crop, the photometric normalization and the dataset index of the
`GTA5` and `CityScapes` sample sources.

Machine pixel values are embedded exactly: raw category ids and training ids
are naturals (uint8 values are exactly representable in float32, so keeping
them in ℕ under a dtype tag loses nothing), image values are rationals.
Arrays are shape-carrying functions from coordinates to values.
-/

namespace SegDA

/-! ## Python primitives used by the script -/

/-- Split of a character list at every occurrence of a separator, keeping empty
chunks, as Python `str.split(sep)` does on the underlying characters. -/
def charSplit (sep : Char) : List Char → List (List Char)
  | [] => [[]]
  | c :: cs =>
    if c = sep then [] :: charSplit sep cs
    else
      match charSplit sep cs with
      | [] => [[c]]
      | r :: rs => (c :: r) :: rs

/-- Python `s.split(sep)` for a one-character separator: always returns at
least one chunk, and `"".split(sep) == [""]`. -/
def pySplit (sep : Char) (s : String) : List String :=
  (charSplit sep s.toList).map (fun cs => String.mk cs)

/-- Python substring test `sub in s`, used by `CityScapes.__getitem__` for the
check `"train" in self.set`. -/
def listSubSeg [DecidableEq α] : List α → List α → Bool
  | needle, [] => needle.isEmpty
  | needle, c :: cs => needle.isPrefixOf (c :: cs) || listSubSeg needle cs

/-- Python `sub in s` on strings. -/
def pyInStr (sub s : String) : Bool := listSubSeg sub.toList s.toList

/-- Python list subscript `xs[i]` with an `int` index: non-negative indices
below the length read directly, negative indices at least `-len(xs)` wrap to
`i + len(xs)`, and anything else raises `IndexError`, modelled as `none`. -/
def pyGet {α : Type} (xs : List α) (i : ℤ) : Option α :=
  if 0 ≤ i then xs.get? i.toNat
  else if -(xs.length : ℤ) ≤ i then xs.get? (i + xs.length).toNat
  else none

/-! ## Arrays -/

/-- Two-dimensional array of height `H` and width `W`: the model of a label
map. Reads are total functions of the coordinates; theorems that depend on
bounds carry them as hypotheses. -/
structure Mat (α : Type) where
  H : ℕ
  W : ℕ
  val : ℕ → ℕ → α

/-- Image array in height-width-channel layout, as produced by
`np.asarray(PIL image)`. -/
structure Img3 where
  H : ℕ
  W : ℕ
  C : ℕ
  val : ℕ → ℕ → ℕ → ℚ

/-- Image array in channel-height-width layout, the result of
`image.transpose((2, 0, 1))`. -/
structure ImgCHW where
  C : ℕ
  H : ℕ
  W : ℕ
  val : ℕ → ℕ → ℕ → ℚ

/-- Numpy dtype tag carried by a label array through the pipeline. -/
inductive DType where
  | uint8 : DType
  | float32 : DType
deriving DecidableEq

/-- Numpy label array: a dtype tag plus integer pixel values. Raw ids and
training ids are below 2^24, hence exact in float32, so the values stay in ℕ
whatever the tag. -/
structure NpLabel where
  dtype : DType
  mat : Mat ℕ

/-- Conversion `np.asarray(label, np.float32)` (source lines 81 and 154): the
values are unchanged, the dtype becomes float32. -/
def asarrayF32 (m : Mat ℕ) : NpLabel := ⟨DType.float32, m⟩

/-! ## Label codec -/

/-- Modelled from the spec: `encode_segmap` lives in `dataset/utils.py`, which
is not under `src/`; only its call sites are. Per the spec's Label Codec
contract, for every pixel the raw id is looked up in the label2train map and
an unmapped raw id maps to the ignore value instead of raising. -/
def encode_segmap (label : Mat ℕ) (mapping : List (ℕ × ℕ)) (ignore : ℕ) :
    Mat ℕ :=
  ⟨label.H, label.W, fun h w => ((mapping.lookup (label.val h w)).getD ignore)⟩

/-- Label codec on a numpy array: the remap writes into a buffer of the same
dtype as the float-converted input, so the dtype tag is preserved. -/
def encode_segmapNp (label : NpLabel) (mapping : List (ℕ × ℕ)) (ignore : ℕ) :
    NpLabel :=
  ⟨label.dtype, encode_segmap label.mat mapping ignore⟩

/-! ## Center crop -/

/-- Top (or left) offset of the deterministic center crop of
`torchvision.transforms.CenterCrop`: half the slack, in integer arithmetic. -/
def cropTop (full target : ℕ) : ℕ := (full - target) / 2

/-- Center crop of a label map to `cH × cW`. -/
def centerCropMat (cH cW : ℕ) (m : Mat α) : Mat α :=
  ⟨cH, cW, fun h w => m.val (cropTop m.H cH + h) (cropTop m.W cW + w)⟩

/-- Center crop of an image, same rectangle on every channel. -/
def centerCropImg (cH cW : ℕ) (m : Img3) : Img3 :=
  ⟨cH, cW, m.C, fun h w c => m.val (cropTop m.H cH + h) (cropTop m.W cW + w) c⟩

/-! ## Photometric steps and layout -/

/-- Channel reversal `image[:, :, ::-1]` (RGB to BGR-like). -/
def reverseChannels (m : Img3) : Img3 :=
  ⟨m.H, m.W, m.C, fun h w c => m.val h w (m.C - 1 - c)⟩

/-- Mean subtraction `image -= self.mean`, broadcast over the channel axis. -/
def subMean (mean : ℕ → ℚ) (m : Img3) : Img3 :=
  ⟨m.H, m.W, m.C, fun h w c => m.val h w c - mean c⟩

/-- Layout transposition `image.transpose((2, 0, 1))` to channel-first. -/
def transposeCHW (m : Img3) : ImgCHW :=
  ⟨m.C, m.H, m.W, fun c h w => m.val h w c⟩

/-- Shape `image.shape` of a height-width-channel array, read before the
transposition (source lines 86 and 160). -/
def shapeHWC (m : Img3) : ℕ × ℕ × ℕ := (m.H, m.W, m.C)

/-! ## Paired augmentation

The transform objects (`t.Compose`, `t.HorizontalFlip`, `t.RandomScale`) live
in `utils/transform.py`, which is not under `src/`; `main` only builds
`t.Compose([t.HorizontalFlip(), t.RandomScale((0.5, 0.75, 1, 1.5))])` (source
lines 213–216) and each dataset calls `self.transform(image, label)` once per
sample (lines 71–72 and 143–144). The transform semantics below is modelled
from the spec: one randomly sampled geometric operation — a horizontal flip
drawn with fixed probability, or a rescale by a factor from the discrete
candidate set — applied to the image and to the label with the same sampled
parameters. Rescaling is modelled as nearest-neighbour coordinate scaling. -/

/-- Geometric operation sampled by the paired augmentation. -/
inductive GeomOp where
  | ident : GeomOp
  | hflip : GeomOp
  | rescale : ℚ → GeomOp

/-- Candidate factors of `RandomScale((0.5, 0.75, 1, 1.5))`. -/
def scaleFactors : List ℚ := [1/2, 3/4, 1, 3/2]

/-- Random draws consumed by one invocation of the paired augmentation: which
transform is sampled, the flip coin, and the index into the scale candidates. -/
structure Draws where
  pickFlip : Bool
  coin : Bool
  idx : Fin 4

/-- Modelled from the spec: the single sampled geometric operation of the
paired augmentation, as a function of the random draws. -/
def chooseOp (d : Draws) : GeomOp :=
  if d.pickFlip then (if d.coin then GeomOp.hflip else GeomOp.ident)
  else GeomOp.rescale (scaleFactors.getD d.idx.val 1)

/-- Output spatial size of a geometric operation. -/
def opSize (op : GeomOp) (H W : ℕ) : ℕ × ℕ :=
  match op with
  | GeomOp.ident => (H, W)
  | GeomOp.hflip => (H, W)
  | GeomOp.rescale f => ((⌊(H : ℚ) * f⌋).toNat, (⌊(W : ℚ) * f⌋).toNat)

/-- Source coordinate read by a geometric operation for a given output
coordinate; shared by the image and the label application so that the two can
never decorrelate. -/
def opCoord (op : GeomOp) (H W : ℕ) (h w : ℕ) : ℕ × ℕ :=
  match op with
  | GeomOp.ident => (h, w)
  | GeomOp.hflip => (h, W - 1 - w)
  | GeomOp.rescale f => ((⌊(h : ℚ) / f⌋).toNat, (⌊(w : ℚ) / f⌋).toNat)

/-- Application of a geometric operation to an image. -/
def applyOpImg (op : GeomOp) (m : Img3) : Img3 :=
  ⟨(opSize op m.H m.W).1, (opSize op m.H m.W).2, m.C,
    fun h w c => m.val (opCoord op m.H m.W h w).1 (opCoord op m.H m.W h w).2 c⟩

/-- Application of a geometric operation to a label map. -/
def applyOpMat (op : GeomOp) (m : Mat ℕ) : Mat ℕ :=
  ⟨(opSize op m.H m.W).1, (opSize op m.H m.W).2,
    fun h w => m.val (opCoord op m.H m.W h w).1 (opCoord op m.H m.W h w).2⟩

/-- Modelled from the spec: the paired augmentation applies the one sampled
operation to both the image and the label. -/
def pairedTransform (d : Draws) (img : Img3) (lab : Mat ℕ) : Img3 × Mat ℕ :=
  (applyOpImg (chooseOp d) img, applyOpMat (chooseOp d) lab)

/-- Branch `if self.transform is not None: image, label = self.transform(
image, label)` (source lines 71–72 and 143–144). -/
def applyTr (tr : Option Draws) (img : Img3) (lab : Mat ℕ) : Img3 × Mat ℕ :=
  match tr with
  | some d => pairedTransform d img lab
  | none => (img, lab)

/-! ## Dataset index -/

/-- One entry of `self.files`: the dict
`{"image": image_path, "label": label_path, "name": name}`. -/
structure FileEntry where
  image : String
  label : String
  name : String
deriving DecidableEq

namespace GTA5

/-- Identifier list `[line.split('.')[0] for line in tuple(open(file_list))]`
of `GTA5.__init__` (source line 43); `split` always yields a first chunk. -/
def imgIds (lines : List String) : List String :=
  lines.map (fun line => (pySplit '.' line).headD "")

/-- Dataset index built by `GTA5.__init__` (source lines 48–55). The
`max_iters` constructor argument is accepted but never read. -/
def mkFiles (root : String) (lines : List String) (maxIters : Option ℕ) :
    List FileEntry :=
  (imgIds lines).map (fun n =>
    ⟨root ++ "images/" ++ n ++ ".png", root ++ "labels/" ++ n ++ ".png", n⟩)

end GTA5

namespace CityScapes

/-- Identifier reconstruction
`line.split('/')[0] + '_' + line.split('_')[1] + '_' + line.split('_')[2]` of
`CityScapes.__init__` (source line 115); a line with fewer than two
underscores raises `IndexError`, modelled as `none`. -/
def parseId (line : String) : Option String :=
  match (pySplit '/' line).get? 0, (pySplit '_' line).get? 1,
      (pySplit '_' line).get? 2 with
  | some a, some b, some c => some (a ++ "_" ++ b ++ "_" ++ c)
  | _, _, _ => none

/-- Dataset index built by `CityScapes.__init__` (source lines 115–127); the
`max_iters` constructor argument is accepted but never read. -/
def mkFiles (root : String) (lines : List String) (maxIters : Option ℕ) :
    Option (List FileEntry) :=
  (lines.mapM parseId).map (fun ids =>
    ids.map (fun n =>
      ⟨root ++ "images/" ++ n ++ "_leftImg8bit.png",
       root ++ "labels/" ++ n ++ "_gtFine_labelIds.png", n⟩))

/-- Split name `self.set = 'train' if self.train else 'val'` (source line
104). -/
def setOf (train : Bool) : String := if train then "train" else "val"

end CityScapes

/-! ## Per-sample pipelines -/

/-- Per-sample core of `GTA5.__getitem__` (source lines 62–91), after the file
reads: paired transform when configured, center crop of image and label,
float32 conversion, label remap, shape read, channel reversal, mean
subtraction and transposition. -/
def GTA5.getitem (cropH cropW : ℕ) (mean : ℕ → ℚ) (mapping : List (ℕ × ℕ))
    (ignore : ℕ) (tr : Option Draws) (image : Img3) (label : Mat ℕ) :
    ImgCHW × NpLabel × (ℕ × ℕ × ℕ) :=
  let p := applyTr tr image label
  let image1 := centerCropImg cropH cropW p.1
  let label1 := centerCropMat cropH cropW p.2
  let labelF := asarrayF32 label1
  let labelE := encode_segmapNp labelF mapping ignore
  let size := shapeHWC image1
  let imageOut := transposeCHW (subMean mean (reverseChannels image1))
  (imageOut, labelE, size)

/-- Per-sample core of `CityScapes.__getitem__` (source lines 134–165):
identical to the GTA5 pipeline except that the center crop only runs when
`"train" in self.set` and the label remap is skipped when `self.ssl` is
truthy. -/
def CityScapes.getitem (cropH cropW : ℕ) (mean : ℕ → ℚ)
    (mapping : List (ℕ × ℕ)) (ignore : ℕ) (ssl train : Bool)
    (tr : Option Draws) (image : Img3) (label : Mat ℕ) :
    ImgCHW × NpLabel × (ℕ × ℕ × ℕ) :=
  let p := applyTr tr image label
  let doCrop := pyInStr "train" (CityScapes.setOf train)
  let image1 := if doCrop then centerCropImg cropH cropW p.1 else p.1
  let label1 := if doCrop then centerCropMat cropH cropW p.2 else p.2
  let labelF := asarrayF32 label1
  let labelE := if ssl then labelF else encode_segmapNp labelF mapping ignore
  let size := shapeHWC image1
  let imageOut := transposeCHW (subMean mean (reverseChannels image1))
  (imageOut, labelE, size)

/-! ## Helper lemmas -/

/-- Lookup of a key absent from the key column of an association list
fails. -/
theorem lookup_eq_none_of_not_mem {β : Type} (m : List (ℕ × β)) (v : ℕ)
    (hv : v ∉ m.map Prod.fst) : m.lookup v = none := by
  induction m with
  | nil => rfl
  | cons p es ih =>
    obtain ⟨k, b⟩ := p
    simp only [List.map, List.mem_cons] at hv
    push_neg at hv
    have hk : (v == k) = false := by simpa using hv.1
    simp [List.lookup, hk, ih hv.2]

/-- Values produced by a successful lookup lie in the value column. -/
theorem mem_snd_of_lookup_eq_some {β : Type} (m : List (ℕ × β)) (v : ℕ)
    (t : β) (h : m.lookup v = some t) : t ∈ m.map Prod.snd := by
  induction m with
  | nil => simp [List.lookup] at h
  | cons p es ih =>
    obtain ⟨k, b⟩ := p
    by_cases hk : v = k
    · subst hk
      simp [List.lookup] at h
      simp [h]
    · have hkb : (v == k) = false := by simpa using hk
      simp only [List.lookup, hkb] at h
      simp [ih h]

/-- A successful monadic map over `Option` preserves the length. -/
theorem length_of_mapM_eq_some {α β : Type} (f : α → Option β) (l : List α)
    (ys : List β) (h : l.mapM f = some ys) : ys.length = l.length := by
  induction l generalizing ys with
  | nil =>
    simp only [List.mapM_nil, pure, Option.some.injEq] at h
    subst h
    rfl
  | cons a as ih =>
    rw [List.mapM_cons] at h
    cases hfa : f a with
    | none => rw [hfa] at h; simp at h
    | some b =>
      rw [hfa] at h
      cases hml : as.mapM f with
      | none => rw [hml] at h; simp at h
      | some bs =>
        rw [hml] at h
        have h2 : b :: bs = ys := by simpa using h
        subst h2
        simp [ih bs hml]

/-! ## Concrete fixtures -/

/-- Three-class label2train map of the end-to-end scenario. -/
def map3 : List (ℕ × ℕ) := [(7, 0), (8, 1), (11, 2)]

/-- The three-class map extended by the identity on its training ids and on
the ignore value. -/
def map3Ext : List (ℕ × ℕ) := map3 ++ [(0, 0), (1, 1), (2, 2), (255, 255)]

/-- Concrete raw 2×2 label holding the values 7, 8, 11 and 9. -/
def lab22 : Mat ℕ :=
  ⟨2, 2, fun h w =>
    if h = 0 then (if w = 0 then 7 else 8) else (if w = 0 then 11 else 9)⟩

/-- Concrete 4×4 three-channel image. -/
def img44 : Img3 := ⟨4, 4, 3, fun h w c => (h : ℚ) + w + c⟩

/-- Concrete 4×4 raw label. -/
def lab44 : Mat ℕ := ⟨4, 4, fun h w => 4 * h + w⟩

/-- Concrete two-entry dataset index. -/
def files2 : List FileEntry :=
  [⟨"i0.png", "l0.png", "a"⟩, ⟨"i1.png", "l1.png", "b"⟩]

/-! ## Claims -/

/-- C1: with the 3-class map {7 ↦ 0, 8 ↦ 1, 11 ↦ 2} and ignore value 255,
`encode_segmap` sends every pixel holding 7 to 0, 8 to 1, 11 to 2 and every
unmapped raw id — in particular 9 — to 255, at the same positions; in
general a raw id absent from the map encodes to the ignore value rather than
raising. -/
theorem c1_encode_three_class_map :
    (∀ (L : Mat ℕ) (h w : ℕ),
      (encode_segmap L map3 255).val h w =
        (if L.val h w = 7 then 0
         else if L.val h w = 8 then 1
         else if L.val h w = 11 then 2 else 255)) ∧
    (∀ (L : Mat ℕ) (m : List (ℕ × ℕ)) (ig h w : ℕ),
      L.val h w ∉ m.map Prod.fst → (encode_segmap L m ig).val h w = ig) := by
  constructor
  · intro L h w
    show (map3.lookup (L.val h w)).getD 255 = _
    by_cases h7 : L.val h w = 7
    · rw [h7]; rfl
    by_cases h8 : L.val h w = 8
    · rw [h8]; rfl
    by_cases h11 : L.val h w = 11
    · rw [h11]; rfl
    have b7 : (L.val h w == 7) = false := by simpa using h7
    have b8 : (L.val h w == 8) = false := by simpa using h8
    have b11 : (L.val h w == 11) = false := by simpa using h11
    simp [map3, List.lookup, b7, b8, b11, h7, h8, h11]
  · intro L m ig h w hmem
    show (m.lookup (L.val h w)).getD ig = ig
    rw [lookup_eq_none_of_not_mem m _ hmem]
    rfl

/-- Witness for C1: in the concrete 2×2 label the value 9 at position (1,1)
is absent from the map and encodes to 255. -/
theorem c1_encode_three_class_map_witness :
    lab22.val 1 1 ∉ map3.map Prod.fst ∧
      (encode_segmap lab22 map3 255).val 1 1 = 255 :=
  ⟨by decide, c1_encode_three_class_map.2 lab22 map3 255 1 1 (by decide)⟩

/-- C6: the label codec is idempotent — re-encoding an already-encoded label
with any map that extends to the identity on the produced training ids and
fixes the ignore value returns the encoded label unchanged. -/
theorem c6_encode_idempotent (L : Mat ℕ) (m mExt : List (ℕ × ℕ)) (ig : ℕ)
    (hext : ∀ v, v ∈ m.map Prod.snd ∨ v = ig →
      (mExt.lookup v).getD ig = v) :
    encode_segmap (encode_segmap L m ig) mExt ig = encode_segmap L m ig := by
  unfold encode_segmap
  refine congrArg (Mat.mk L.H L.W) (funext fun h => funext fun w => ?_)
  cases hm : m.lookup (L.val h w) with
  | none => simpa [hm] using hext ig (Or.inr rfl)
  | some t =>
    simpa [hm] using hext t (Or.inl (mem_snd_of_lookup_eq_some m _ t hm))

/-- Witness for C6: re-encoding the encoded concrete label with the
identity-extended three-class map is the identity. -/
theorem c6_encode_idempotent_witness :
    encode_segmap (encode_segmap lab22 map3 255) map3Ext 255 =
      encode_segmap lab22 map3 255 :=
  c6_encode_idempotent lab22 map3 map3Ext 255 (by
    intro v hv
    rcases hv with hv | hv
    · have hv3 : v = 0 ∨ v = 1 ∨ v = 2 := by simpa [map3] using hv
      rcases hv3 with rfl | rfl | rfl <;> rfl
    · subst hv; rfl)

/-- C2 counterexample: on a dataset of length 2 the out-of-range index -1
does not fail: Python list subscripting wraps it to the last sample. -/
theorem c2_counterexample :
    files2.length = 2 ∧ pyGet files2 (-1) = some ⟨"i1.png", "l1.png", "b"⟩ :=
  ⟨rfl, rfl⟩

/-- C2 amended: a dataset built from an empty manifest has length 0 and every
index fails on it; an index at or beyond the length, or below minus the
length, fails deterministically (IndexError, no default sample); but a
negative index in [-n, 0) follows Python subscript semantics and wraps to
index + n instead of failing. -/
theorem c2_len_and_indexing :
    (∀ (root : String) (mi : Option ℕ),
      (GTA5.mkFiles root [] mi).length = 0) ∧
    (∀ i : ℤ, pyGet ([] : List FileEntry) i = none) ∧
    (∀ (xs : List FileEntry) (i : ℤ),
      (i < -(xs.length : ℤ) ∨ (xs.length : ℤ) ≤ i) → pyGet xs i = none) ∧
    (∀ (xs : List FileEntry) (i : ℤ), -(xs.length : ℤ) ≤ i → i < 0 →
      pyGet xs i = xs.get? (i + xs.length).toNat) := by
  refine ⟨fun root mi => rfl, ?_, ?_, ?_⟩
  · intro i
    unfold pyGet
    split
    · rfl
    · split
      · rfl
      · rfl
  · intro xs i h
    unfold pyGet
    split_ifs with h1 h2
    · refine List.get?_eq_none.2 ?_
      omega
    · exfalso; omega
    · rfl
  · intro xs i h1 h2
    unfold pyGet
    split_ifs with ha <;> first | rfl | (exfalso; omega)

/-- Witness for C2: index 5 on the two-entry dataset fails, and index -2
wraps to position 0. -/
theorem c2_len_and_indexing_witness :
    pyGet files2 5 = none ∧ pyGet files2 (-2) = files2.get? 0 :=
  ⟨c2_len_and_indexing.2.2.1 files2 5 (Or.inr (by decide)),
   by
    have h := c2_len_and_indexing.2.2.2 files2 (-2) (by decide) (by decide)
    exact h⟩

/-- C3 counterexample: the CityScapes pipeline in ssl mode returns the label
as a float32 array — the float conversion of source line 154 is never undone
— so the returned label is not an integer matrix. -/
theorem c3_counterexample :
    (CityScapes.getitem 2 2 (fun _ => 0) map3 255 true false none img44
        lab44).2.1.dtype = DType.float32 ∧
      DType.float32 ≠ DType.uint8 :=
  ⟨rfl, by decide⟩

/-- C3 amended: the label component returned by either pipeline is a float32
matrix of shape [H, W] with integer values — `np.asarray(label, np.float32)`
(source lines 81 and 154) makes the label floating-point before (or instead
of) the remap, so it is never an integer array. -/
theorem c3_label_dtype_float32 (cropH cropW : ℕ) (mean : ℕ → ℚ)
    (mapping : List (ℕ × ℕ)) (ignore : ℕ) (ssl train : Bool)
    (tr : Option Draws) (img : Img3) (lab : Mat ℕ) :
    (GTA5.getitem cropH cropW mean mapping ignore tr img lab).2.1.dtype =
      DType.float32 ∧
    (CityScapes.getitem cropH cropW mean mapping ignore ssl train tr img
        lab).2.1.dtype = DType.float32 := by
  constructor
  · rfl
  · cases ssl <;> rfl

/-- C4: the paired augmentation applies one single sampled geometric
operation per sample — the identity or a horizontal flip when the flip
transform is drawn, or a rescale by a factor from the candidate set — to the
image and to the label with identical sampled parameters: both read through
the same source-coordinate map of that one operation. -/
theorem c4_single_paired_op (d : Draws) (img : Img3) (lab : Mat ℕ) :
    ∃ op : GeomOp,
      (op = GeomOp.ident ∨ op = GeomOp.hflip ∨
        ∃ f, f ∈ scaleFactors ∧ op = GeomOp.rescale f) ∧
      pairedTransform d img lab = (applyOpImg op img, applyOpMat op lab) ∧
      (∀ h w c, (applyOpImg op img).val h w c =
        img.val (opCoord op img.H img.W h w).1
          (opCoord op img.H img.W h w).2 c) ∧
      (∀ h w, (applyOpMat op lab).val h w =
        lab.val (opCoord op lab.H lab.W h w).1
          (opCoord op lab.H lab.W h w).2) := by
  obtain ⟨p, c, idx⟩ := d
  refine ⟨chooseOp ⟨p, c, idx⟩, ?_, rfl, fun h w c2 => rfl, fun h w => rfl⟩
  cases p
  · right; right
    refine ⟨scaleFactors.getD idx.val 1, ?_, rfl⟩
    fin_cases idx <;> simp [scaleFactors]
  · cases c
    · left; rfl
    · right; left; rfl

/-- Spatial sizes stay equal through the optional paired transform: the one
sampled operation resizes image and label identically. -/
theorem applyTr_preserves_dims (tr : Option Draws) (img : Img3) (lab : Mat ℕ)
    (hH : img.H = lab.H) (hW : img.W = lab.W) :
    (applyTr tr img lab).1.H = (applyTr tr img lab).2.H ∧
    (applyTr tr img lab).1.W = (applyTr tr img lab).2.W := by
  cases tr with
  | none => exact ⟨hH, hW⟩
  | some d => simp [applyTr, pairedTransform, applyOpImg, applyOpMat, hH, hW]

/-- C5 amended: `GTA5.__getitem__` center-crops image and label to the
configured size with the same rectangle (equal top/left offsets whenever the
pair enters the crop with equal spatial sizes), so both leave with spatial
size (cropH, cropW); `CityScapes.__getitem__` runs the crop only when
`"train" in self.set`, so the validation split applies no crop and the label
keeps its pre-crop size — image and label still share spatial dimensions. -/
theorem c5_center_crop (cropH cropW : ℕ) (mean : ℕ → ℚ)
    (mapping : List (ℕ × ℕ)) (ignore : ℕ) (ssl : Bool) (tr : Option Draws)
    (img : Img3) (lab : Mat ℕ) (hH : img.H = lab.H) (hW : img.W = lab.W) :
    ((GTA5.getitem cropH cropW mean mapping ignore tr img lab).2.1.mat.H =
        cropH ∧
      (GTA5.getitem cropH cropW mean mapping ignore tr img lab).2.1.mat.W =
        cropW ∧
      (GTA5.getitem cropH cropW mean mapping ignore tr img lab).1.H =
        cropH ∧
      (GTA5.getitem cropH cropW mean mapping ignore tr img lab).1.W =
        cropW) ∧
    (cropTop (applyTr tr img lab).1.H cropH =
        cropTop (applyTr tr img lab).2.H cropH ∧
      cropTop (applyTr tr img lab).1.W cropW =
        cropTop (applyTr tr img lab).2.W cropW) ∧
    ((CityScapes.getitem cropH cropW mean mapping ignore ssl false tr img
          lab).2.1.mat.H = (applyTr tr img lab).2.H ∧
      (CityScapes.getitem cropH cropW mean mapping ignore ssl false tr img
          lab).2.1.mat.W = (applyTr tr img lab).2.W ∧
      (CityScapes.getitem cropH cropW mean mapping ignore ssl false tr img
          lab).1.H =
        (CityScapes.getitem cropH cropW mean mapping ignore ssl false tr img
          lab).2.1.mat.H ∧
      (CityScapes.getitem cropH cropW mean mapping ignore ssl false tr img
          lab).1.W =
        (CityScapes.getitem cropH cropW mean mapping ignore ssl false tr img
          lab).2.1.mat.W) := by
  obtain ⟨dH, dW⟩ := applyTr_preserves_dims tr img lab hH hW
  refine ⟨⟨rfl, rfl, rfl, rfl⟩, ⟨by rw [dH], by rw [dW]⟩, ?_⟩
  cases ssl
  · exact ⟨rfl, rfl, dH, dW⟩
  · exact ⟨rfl, rfl, dH, dW⟩

/-- Witness for C5: on the concrete 4×4 pair with crop size 2 and a sampled
flip, the returned GTA5 label has height 2. -/
theorem c5_center_crop_witness :
    (GTA5.getitem 2 2 (fun _ => 0) map3 255 (some ⟨true, true, 0⟩) img44
        lab44).2.1.mat.H = 2 :=
  (c5_center_crop 2 2 (fun _ => 0) map3 255 true (some ⟨true, true, 0⟩)
    img44 lab44 rfl rfl).1.1

/-- C5 counterexample: in the CityScapes validation split no center crop is
applied although the claim requires one for every pair processed: with crop
size 2 the returned label keeps spatial size 4. -/
theorem c5_counterexample :
    (CityScapes.getitem 2 2 (fun _ => 0) map3 255 true false none img44
        lab44).2.1.mat.H = 4 ∧ (4 : ℕ) ≠ 2 :=
  ⟨rfl, by decide⟩

/-- C7: in ssl mode the CityScapes pipeline skips the label codec — the
non-ssl label equals the codec applied to the ssl label for identical
remaining configuration — and in the validation configuration of `main`
(ssl, no transform, no crop) the raw label values pass through to the
returned sample unmodified, only tagged float32 by the array conversion. -/
theorem c7_ssl_skips_codec (cropH cropW : ℕ) (mean : ℕ → ℚ)
    (mapping : List (ℕ × ℕ)) (ignore : ℕ) (train : Bool) (tr : Option Draws)
    (img : Img3) (lab : Mat ℕ) :
    (CityScapes.getitem cropH cropW mean mapping ignore false train tr img
        lab).2.1 =
      encode_segmapNp
        ((CityScapes.getitem cropH cropW mean mapping ignore true train tr
            img lab).2.1) mapping ignore ∧
    (CityScapes.getitem cropH cropW mean mapping ignore true false none img
        lab).2.1 = ⟨DType.float32, lab⟩ :=
  ⟨rfl, rfl⟩

/-- C8: the image returned by `GTA5.__getitem__` has its channel order
reversed, the per-channel mean subtracted (after the reversal, so mean index
c meets reversed channel c) and a channel-first [C, H, W] layout, while the
returned spatial_size is the pre-transpose (H, W, C) shape of the cropped
image. -/
theorem c8_image_normalization (cropH cropW : ℕ) (mean : ℕ → ℚ)
    (mapping : List (ℕ × ℕ)) (ignore : ℕ) (tr : Option Draws) (img : Img3)
    (lab : Mat ℕ) :
    (GTA5.getitem cropH cropW mean mapping ignore tr img lab).2.2 =
      (cropH, cropW, (applyTr tr img lab).1.C) ∧
    (GTA5.getitem cropH cropW mean mapping ignore tr img lab).1 =
      ⟨(applyTr tr img lab).1.C, cropH, cropW,
        fun c h w =>
          (centerCropImg cropH cropW (applyTr tr img lab).1).val h w
              ((applyTr tr img lab).1.C - 1 - c) -
            mean c⟩ :=
  ⟨rfl, rfl⟩

/-- C9: the photometric steps modify only the image: the label returned by
either pipeline is unchanged when the per-channel mean — or even the whole
input image — is replaced. -/
theorem c9_label_untouched (cropH cropW : ℕ) (mapping : List (ℕ × ℕ))
    (ignore : ℕ) (ssl train : Bool) (tr : Option Draws)
    (mean1 mean2 : ℕ → ℚ) (img1 img2 : Img3) (lab : Mat ℕ) :
    (GTA5.getitem cropH cropW mean1 mapping ignore tr img1 lab).2.1 =
      (GTA5.getitem cropH cropW mean2 mapping ignore tr img2 lab).2.1 ∧
    (CityScapes.getitem cropH cropW mean1 mapping ignore ssl train tr img1
        lab).2.1 =
      (CityScapes.getitem cropH cropW mean2 mapping ignore ssl train tr img2
        lab).2.1 := by
  cases tr <;> exact ⟨rfl, rfl⟩

/-- C10: the max_iters constructor argument of both dataset classes is
accepted but never used: the dataset index — and hence `__len__` — has
exactly one entry per manifest line, for every value of max_iters. -/
theorem c10_max_iters_unused (root : String) (lines : List String)
    (mi mi2 : Option ℕ) :
    GTA5.mkFiles root lines mi = GTA5.mkFiles root lines mi2 ∧
    (GTA5.mkFiles root lines mi).length = lines.length ∧
    CityScapes.mkFiles root lines mi = CityScapes.mkFiles root lines mi2 ∧
    (∀ fs, CityScapes.mkFiles root lines mi = some fs →
      fs.length = lines.length) := by
  refine ⟨rfl, ?_, rfl, ?_⟩
  · simp [GTA5.mkFiles, GTA5.imgIds]
  · intro fs hfs
    unfold CityScapes.mkFiles at hfs
    cases hm : lines.mapM CityScapes.parseId with
    | none => rw [hm] at hfs; simp at hfs
    | some ids =>
      rw [hm] at hfs
      have h2 : ids.map (fun n =>
          (⟨root ++ "images/" ++ n ++ "_leftImg8bit.png",
            root ++ "labels/" ++ n ++ "_gtFine_labelIds.png", n⟩ :
            FileEntry)) = fs := by simpa using hfs
      rw [← h2]
      simp [length_of_mapM_eq_some _ _ _ hm]

/-- Witness for C10: a one-line CityScapes manifest builds a one-entry
index, for an arbitrary max_iters value. -/
theorem c10_max_iters_unused_witness :
    ([(⟨"r/images/city1_000_001_leftImg8bit.png",
        "r/labels/city1_000_001_gtFine_labelIds.png",
        "city1_000_001"⟩ : FileEntry)]).length =
      (["city1/city1_000_001_x.png"] : List String).length :=
  (c10_max_iters_unused "r/" ["city1/city1_000_001_x.png"] (some 5)
    none).2.2.2 _ rfl

end SegDA
